import Mathlib

/-!
# Verification of the data-lake ETL job (etl.py)

A shallow embedding of the transformation logic of `etl.py`: the job reads
song-metadata records and user listening-session log records, derives five
warehouse tables (songs, artists, users, time, song_plays) and writes each to
a partitioned parquet destination.

Modelling conventions:
* A Spark dataframe is a `List` of rows; each table's row type is a structure
  whose fields are exactly the columns kept by the corresponding `select`.
* Numeric JSON scalars that no claim inspects (duration, latitude, longitude)
  are modelled as `Int`; `ts` is an integer epoch-millisecond count (`Nat`).
* `dropDuplicates()` is `List.dedup` (exact full-tuple deduplication).
* `datetime.fromtimestamp(ts / 1000.0)` at millisecond precision is in
  bijection with the epoch-millisecond count itself, so a datetime value is
  represented by its epoch-millisecond count; the engine-default timezone is
  taken to be UTC.
-/

/-- A raw song-metadata record as read by `spark.read.json` from
`song_data/*/*/*/*.json`. -/
structure SongRecord where
  song_id : String
  title : String
  artist_id : String
  artist_name : String
  artist_location : String
  artist_latitude : Int
  artist_longitude : Int
  year : Int
  duration : Int
deriving DecidableEq, Repr

/-- A raw log record as read by `spark.read.json` from `log_data/*.json`. -/
structure LogRecord where
  artist : String
  firstName : String
  gender : String
  itemInSession : Nat
  lastName : String
  level : String
  location : String
  page : String
  sessionId : Nat
  song : String
  ts : Nat
  userAgent : String
  userId : String
deriving DecidableEq, Repr

/-- A log record after the chain of `withColumnRenamed` calls in
`process_log_data`: userId→user_id, firstName→first_name, lastName→last_name,
userAgent→user_agent, sessionId→session_id, itemInSession→item_in_session. -/
structure Event where
  artist : String
  first_name : String
  gender : String
  item_in_session : Nat
  last_name : String
  level : String
  location : String
  page : String
  session_id : Nat
  song : String
  ts : Nat
  user_agent : String
  user_id : String
deriving DecidableEq, Repr

/-- The column renaming applied to the filtered log dataframe. -/
def renameColumns (r : LogRecord) : Event :=
  { artist := r.artist, first_name := r.firstName, gender := r.gender,
    item_in_session := r.itemInSession, last_name := r.lastName,
    level := r.level, location := r.location, page := r.page,
    session_id := r.sessionId, song := r.song, ts := r.ts,
    user_agent := r.userAgent, user_id := r.userId }

/-- A row of the `songs` dimension table:
`select('song_id', 'title', 'artist_id', 'year', 'duration')`. -/
structure SongsRow where
  song_id : String
  title : String
  artist_id : String
  year : Int
  duration : Int
deriving DecidableEq, Repr

/-- A row of the `artists` dimension table: `select('artist_id',
'artist_name', 'artist_location', 'artist_latitude', 'artist_longitude')`. -/
structure ArtistsRow where
  artist_id : String
  artist_name : String
  artist_location : String
  artist_latitude : Int
  artist_longitude : Int
deriving DecidableEq, Repr

/-- A row of the `users` dimension table:
`select('user_id', 'first_name', 'last_name', 'gender', 'level')`. -/
structure UsersRow where
  user_id : String
  first_name : String
  last_name : String
  gender : String
  level : String
deriving DecidableEq, Repr

/-- The projection of a raw song record onto the `songs` columns. -/
def songsProj (r : SongRecord) : SongsRow :=
  ⟨r.song_id, r.title, r.artist_id, r.year, r.duration⟩

/-- `songs_table = df.select('song_id','title','artist_id','year','duration')
.dropDuplicates()`. -/
def songs_table (df : List SongRecord) : List SongsRow :=
  (df.map songsProj).dedup

/-- The projection of a raw song record onto the `artists` columns. -/
def artistsProj (r : SongRecord) : ArtistsRow :=
  ⟨r.artist_id, r.artist_name, r.artist_location, r.artist_latitude,
   r.artist_longitude⟩

/-- `artists_table = df.select('artist_id','artist_name','artist_location',
'artist_latitude','artist_longitude').dropDuplicates()`. -/
def artists_table (df : List SongRecord) : List ArtistsRow :=
  (df.map artistsProj).dedup

/-- `df.filter(df.page == 'NextSong')`. -/
def filterNextSong (df : List LogRecord) : List LogRecord :=
  df.filter (fun r => r.page == "NextSong")

/-- The filtered and renamed log dataframe that feeds the users, time and
song_plays builders. -/
def filteredEvents (df : List LogRecord) : List Event :=
  (filterNextSong df).map renameColumns

/-- The projection of a filtered event onto the `users` columns. -/
def usersProj (e : Event) : UsersRow :=
  ⟨e.user_id, e.first_name, e.last_name, e.gender, e.level⟩

/-- `users_table = df.select('user_id','first_name','last_name','gender',
'level').dropDuplicates()`, taken from the filtered and renamed log rows. -/
def users_table (df : List LogRecord) : List UsersRow :=
  ((filteredEvents df).map usersProj).dedup

/-! ## Time dimension

The udf `lambda x: datetime.fromtimestamp(x / 1000.0)` converts the integer
epoch-millisecond column `ts` to a datetime. At millisecond precision that
conversion is a bijection, so the datetime value is represented by the
epoch-millisecond count itself; the engine-default timezone is modelled as
UTC. `F.hour`, `F.dayofmonth`, `F.weekofyear`, `F.month`, `F.year` and
`F.dayofweek` are modelled by the proleptic-Gregorian calendar functions
below (days-to-civil conversion in the style of the standard
days-from-epoch algorithm). -/

/-- `datetime.fromtimestamp(x / 1000.0)`: the datetime denoted by an epoch
millisecond count, represented by that count. -/
def to_datetime (tsMs : Nat) : Nat := tsMs

/-- Whole seconds of an epoch-millisecond timestamp. -/
def secondsOf (ts : Nat) : Nat := ts / 1000

/-- Whole days since 1970-01-01 of an epoch-millisecond timestamp. -/
def daysOf (ts : Nat) : Nat := secondsOf ts / 86400

/-- `F.hour`: hour of day of an epoch-millisecond timestamp (UTC model). -/
def hourOf (ts : Nat) : Nat := secondsOf ts % 86400 / 3600

/-- Day of the 400-year era: days since 1970-01-01 shifted to a
0000-03-01-based era and reduced modulo the 146097-day era length. -/
def doeOf (z : Nat) : Nat := (z + 719468) % 146097

/-- Index of the 400-year era containing the day `z` (days since epoch). -/
def eraOf (z : Nat) : Nat := (z + 719468) / 146097

/-- Year of the era (0..399) containing day-of-era `doeOf z`. -/
def yoeOf (z : Nat) : Nat :=
  (doeOf z - doeOf z / 1460 + doeOf z / 36524 - doeOf z / 146096) / 365

/-- Day of the (March-based) year, 0-based. -/
def doyOf (z : Nat) : Nat :=
  doeOf z - (365 * yoeOf z + yoeOf z / 4 - yoeOf z / 100)

/-- March-based month index (0 = March .. 11 = February). -/
def mpOf (z : Nat) : Nat := (5 * doyOf z + 2) / 153

/-- `F.dayofmonth`: day of the month (1..31) of day `z` since epoch. -/
def civilDay (z : Nat) : Nat := doyOf z - (153 * mpOf z + 2) / 5 + 1

/-- `F.month`: calendar month (1..12) of day `z` since epoch. -/
def civilMonth (z : Nat) : Nat := if mpOf z < 10 then mpOf z + 3 else mpOf z - 9

/-- `F.year`: calendar year of day `z` since epoch. -/
def civilYear (z : Nat) : Nat :=
  yoeOf z + eraOf z * 400 + (if civilMonth z ≤ 2 then 1 else 0)

/-- Days since epoch of a civil date (inverse of the conversion above),
for dates on or after 1970-01-01. -/
def daysFromCivil (y m d : Nat) : Nat :=
  let yy := if m ≤ 2 then y - 1 else y
  let era := yy / 400
  let yoe := yy - era * 400
  let mp := if m > 2 then m - 3 else m + 9
  let doy := (153 * mp + 2) / 5 + d - 1
  let doe := yoe * 365 + yoe / 4 - yoe / 100 + doy
  era * 146097 + doe - 719468

/-- Number of ISO-8601 weeks in year `y` (52 or 53). -/
def isoWeeks (y : Nat) : Nat :=
  let p := fun (yy : Nat) => (yy + yy / 4 - yy / 100 + yy / 400) % 7
  if p y = 4 ∨ p (y - 1) = 3 then 53 else 52

/-- `F.weekofyear`: ISO-8601 week number of the year of an epoch-millisecond
timestamp (modelled for dates on or after 1970-01-01). -/
def weekofyearOf (ts : Nat) : Nat :=
  let z := daysOf ts
  let y := civilYear z
  let doy1 := z - daysFromCivil y 1 1 + 1
  let dow := (z + 3) % 7 + 1
  let w := (10 + doy1 - dow) / 7
  if w = 0 then isoWeeks (y - 1)
  else if isoWeeks y < w then 1 else w

/-- `F.dayofweek`: day of week with 1 = Sunday .. 7 = Saturday
(1970-01-01 was a Thursday, i.e. 5). -/
def dayofweekOf (ts : Nat) : Nat := (daysOf ts + 4) % 7 + 1

/-- A row of the `time` dimension table: `select('start_time', 'hour',
'day', 'week', 'month', 'year', 'weekday')`. -/
structure TimeRow where
  start_time : Nat
  hour : Nat
  day : Nat
  week : Nat
  month : Nat
  year : Nat
  weekday : Nat
deriving DecidableEq, Repr

/-- The derived time columns of a filtered log event, all computed from its
`ts` value: `start_time = to_datetime ts` and the six `F.*` breakdowns. -/
def timeRowOf (ts : Nat) : TimeRow :=
  { start_time := to_datetime ts
    hour := hourOf ts
    day := civilDay (daysOf ts)
    week := weekofyearOf ts
    month := civilMonth (daysOf ts)
    year := civilYear (daysOf ts)
    weekday := dayofweekOf ts }

/-- `time_table = df.select('start_time','hour','day','week','month','year',
'weekday').dropDuplicates()`, over the filtered log rows. -/
def time_table (df : List LogRecord) : List TimeRow :=
  ((filteredEvents df).map (fun e => timeRowOf e.ts)).dedup

/-! ## Songplay fact table

`songplays_table = df.join(song_df, df.artist == song_df.artist_name)` is an
inner join of the filtered/renamed log dataframe against the raw song
dataframe (re-read from `song_data`, not the deduplicated `songs` table),
followed by `withColumn("songplay_id", F.monotonically_increasing_id())` and
the projection onto the nine fact columns.

`F.monotonically_increasing_id` assigns to the row at offset `j` of
partition `i` the id `i * 2^33 + j` (partition index in the upper bits,
row offset in the lower 33 bits), so the ids depend on how the engine has
partitioned the joined rows; the list of partitions is an explicit
parameter of the model. -/

/-- The inner join `df.join(song_df, df.artist == song_df.artist_name)`:
one pair per (filtered log event, song record) with equal artist strings. -/
def joinedPairs (logs : List LogRecord) (song_df : List SongRecord) :
    List (Event × SongRecord) :=
  (filteredEvents logs).flatMap fun e =>
    (song_df.filter fun s => e.artist == s.artist_name).map fun s => (e, s)

/-- `parts` is a partitioning of the joined rows chosen by the engine. -/
def IsJoinPartitioning (logs : List LogRecord) (song_df : List SongRecord)
    (parts : List (List (Event × SongRecord))) : Prop :=
  parts.flatten = joinedPairs logs song_df

/-- Lower 33 bits of a monotonically increasing id hold the record offset
within its partition. -/
def K33 : Nat := 2 ^ 33

/-- Ids `base + j`, `base + j + 1`, ... attached to the rows of one
partition. -/
def monoIdsPart (base : Nat) : Nat → List α → List (Nat × α)
  | _, [] => []
  | j, a :: as => (base + j, a) :: monoIdsPart base (j + 1) as

/-- Ids over the partitions starting at partition index `i`. -/
def monoIdsFrom : Nat → List (List α) → List (Nat × α)
  | _, [] => []
  | i, p :: ps => monoIdsPart (i * K33) 0 p ++ monoIdsFrom (i + 1) ps

/-- `F.monotonically_increasing_id`: pairs each row of the partitioned
dataframe with the id `partitionIndex * 2^33 + offsetInPartition`. -/
def monotonically_increasing_id (parts : List (List α)) : List (Nat × α) :=
  monoIdsFrom 0 parts

/-- A row of the `song_plays` fact table: `select('songplay_id',
'start_time', 'user_id', 'level', 'song_id', 'artist_id', 'session_id',
'location', 'user_agent')`. -/
structure SongplayRow where
  songplay_id : Nat
  start_time : Nat
  user_id : String
  level : String
  song_id : String
  artist_id : String
  session_id : Nat
  location : String
  user_agent : String
deriving DecidableEq, Repr

/-- The projection of one joined pair (with its assigned id) onto the fact
columns: log-side start_time/user_id/level/session_id/location/user_agent,
song-side song_id/artist_id. -/
def factProj (idv : Nat) (e : Event) (s : SongRecord) : SongplayRow :=
  { songplay_id := idv, start_time := to_datetime e.ts, user_id := e.user_id,
    level := e.level, song_id := s.song_id, artist_id := s.artist_id,
    session_id := e.session_id, location := e.location,
    user_agent := e.user_agent }

/-- The `song_plays` fact table built from an engine-chosen partitioning of
the joined rows: id assignment followed by the nine-column projection. -/
def songplays_table (parts : List (List (Event × SongRecord))) :
    List SongplayRow :=
  (monotonically_increasing_id parts).map fun x => factProj x.1 x.2.1 x.2.2

/-! ## Table writer, output paths, configuration and process model -/

/-- Column names kept by the `songs` select. -/
def songsColumns : List String :=
  ["song_id", "title", "artist_id", "year", "duration"]

/-- Column names kept by the `artists` select. -/
def artistsColumns : List String :=
  ["artist_id", "artist_name", "artist_location", "artist_latitude",
   "artist_longitude"]

/-- Column names kept by the `users` select. -/
def usersColumns : List String :=
  ["user_id", "first_name", "last_name", "gender", "level"]

/-- Column names kept by the `time` select. -/
def timeColumns : List String :=
  ["start_time", "hour", "day", "week", "month", "year", "weekday"]

/-- Column names kept by the `song_plays` select. -/
def songplaysColumns : List String :=
  ["songplay_id", "start_time", "user_id", "level", "song_id", "artist_id",
   "session_id", "location", "user_agent"]

/-- `writer.partitionBy(cols).parquet(...)`: a partitioned write succeeds
only when every partition column occurs in the schema of the written
dataframe; a missing partition column raises an AnalysisException. -/
def writeParquetPartitioned (tableCols partitionCols : List String) :
    Except String Unit :=
  if partitionCols.all (fun c => tableCols.contains c) then Except.ok ()
  else Except.error "AnalysisException: partition column not found in schema"

/-- `songs_table.write.partitionBy('year', 'artist_id').parquet(...)`. -/
def writeSongs : Except String Unit :=
  writeParquetPartitioned songsColumns ["year", "artist_id"]

/-- `time_table.write.partitionBy('year', 'month').parquet(...)`. -/
def writeTime : Except String Unit :=
  writeParquetPartitioned timeColumns ["year", "month"]

/-- `songplays_table.write.partitionBy('year', 'month').parquet(...)`,
applied after the projection onto the nine fact columns. -/
def writeSongplays : Except String Unit :=
  writeParquetPartitioned songplaysColumns ["year", "month"]

/-- `os.path.join(a, b)` for one POSIX component: an absolute second
component discards the first; otherwise a separator is inserted unless one
is already present. -/
def osPathJoin (a b : String) : String :=
  if b.data.head? = some '/' then b
  else if a = "" ∨ a.data.getLast? = some '/' then a ++ b
  else a ++ "/" ++ b

/-- `input_data = "s3a://udacity-dend/"` — hardcoded in `main`. -/
def input_data : String := "s3a://udacity-dend/"

/-- `output_data = "s3a://gy-nano-bkt/"` — hardcoded in `main`. -/
def output_data : String := "s3a://gy-nano-bkt/"

/-- Destination of the songs write: `output_data + '/songs'`. -/
def songsWritePath : String := output_data ++ "/songs"

/-- Destination of the artists write: `output_data + '/artists'`. -/
def artistsWritePath : String := output_data ++ "/artists"

/-- Destination of the users write:
`os.path.join(output_data, '/users')`. -/
def usersWritePath : String := osPathJoin output_data "/users"

/-- Destination of the time write: `output_data + '/time'`. -/
def timeWritePath : String := output_data ++ "/time"

/-- Destination of the songplays write: `output_data + '/song_plays'`. -/
def songplaysWritePath : String := output_data ++ "/song_plays"

/-- The configuration the module reads from `dl.cfg`: the two entries it
looks up, each absent when the file or section or option is missing. -/
structure Config where
  keyAwsAccessKeyId : Option String
  secretAwsSecretAccessKey : Option String
deriving DecidableEq, Repr

/-- The two process-wide environment variables exported from the config. -/
structure EnvState where
  aws_access_key_id : String
  aws_secret_access_key : String
deriving DecidableEq, Repr

/-- Everything one completed run produces: the exported environment, the
five destination paths and the five table contents. -/
structure RunOutput where
  env : EnvState
  songsPath : String
  artistsPath : String
  usersPath : String
  timePath : String
  songplaysPath : String
  songs : List SongsRow
  artists : List ArtistsRow
  users : List UsersRow
  time : List TimeRow
  songplays : List SongplayRow
deriving DecidableEq, Repr

/-- One run of the module over given input records: the config is consulted
only to export the two AWS credential environment variables (a missing
entry raises KeyError and the process aborts before any table is built,
modelled as `none`); the input and output roots are the hardcoded
constants, and the five tables are computed from the input records alone.
The songplays partitioning is the single-partition execution
`[joinedPairs logs songRecords]`. -/
def runETL (cfg : Config) (songRecords : List SongRecord)
    (logs : List LogRecord) : Option RunOutput :=
  match cfg.keyAwsAccessKeyId, cfg.secretAwsSecretAccessKey with
  | some k, some s =>
      some { env := ⟨k, s⟩
             songsPath := songsWritePath
             artistsPath := artistsWritePath
             usersPath := usersWritePath
             timePath := timeWritePath
             songplaysPath := songplaysWritePath
             songs := songs_table songRecords
             artists := artists_table songRecords
             users := users_table logs
             time := time_table logs
             songplays := songplays_table [joinedPairs logs songRecords] }
  | _, _ => none

/-! ## Failure reporting and `main` sequencing

Every stage of `etl.py` is wrapped in `try: ... except Exception as e:
error(f"..."); exit()`. The module never defines or imports a function
named `error`, and never imports `TimestampType`, so evaluating either name
raises `NameError` at the point of use. `exit()` with no argument raises
`SystemExit(None)`, which terminates the interpreter with status 0. -/

/-- The names bound at module scope of `etl.py` when a handler runs: the
seven import statements, the four module-level defs, and the builtins the
module mentions (`exit`). -/
def moduleBindings : List String :=
  ["configparser", "datetime", "os", "SparkSession", "F", "udf", "col",
   "year", "month", "dayofmonth", "hour", "weekofyear", "date_format",
   "create_spark_session", "process_song_data", "process_log_data", "main",
   "exit"]

/-- How a failure becomes visible to the user: either a single diagnostic
line followed by termination with the given status, or an uncaught
exception (multi-line interpreter traceback, status 1). -/
inductive FailureReport where
  | singleDiagnostic (line : String) (status : Nat)
  | uncaughtTraceback (exn : String)
deriving DecidableEq, Repr

/-- Exit status of Python `exit(arg)`: `exit()` passes no argument and
terminates with status 0. -/
def pyExitStatus : Option Nat → Nat
  | none => 0
  | some n => n

/-- Semantics of the handler body `error(f"..."); exit()` under a set of
module bindings: if `error` is unbound its evaluation raises NameError,
which propagates uncaught; otherwise the diagnostic is emitted and `exit()`
terminates with status `pyExitStatus none`. -/
def handlerOutcome (bindings : List String) (msg : String) : FailureReport :=
  if bindings.contains "error" then
    FailureReport.singleDiagnostic msg (pyExitStatus none)
  else
    FailureReport.uncaughtTraceback "NameError: name error is not defined"

/-- Outcome of one stage body: either it completes, or some wrapped
statement raises and the handler runs. -/
inductive StageResult where
  | success
  | failure (msg : String)
deriving DecidableEq, Repr

/-- Result of executing a sequence of Python statements: normal completion,
process exit with a status, or an uncaught exception. -/
inductive PyResult where
  | ok
  | exited (status : Nat)
  | raised (exn : String)
deriving DecidableEq, Repr

/-- Executing one top-level stage call: on failure the handler runs, and
its outcome either exits the process or raises out of the handler. -/
def runStageBody (bindings : List String) : StageResult → PyResult
  | StageResult.success => PyResult.ok
  | StageResult.failure msg =>
      match handlerOutcome bindings msg with
      | FailureReport.singleDiagnostic _ status => PyResult.exited status
      | FailureReport.uncaughtTraceback exn => PyResult.raised exn

/-- Sequencing of two Python statements: the second runs only when the
first completes normally (an exit or an uncaught exception ends the
process). -/
def pySeq (r : PyResult) (k : Unit → PyResult) : PyResult :=
  match r with
  | PyResult.ok => k ()
  | r => r

/-- The body of `main` after session creation:
`process_song_data(spark, input_data, output_data)` followed by
`process_log_data(spark, input_data, output_data)`, with no test of the
first call's result in between. Returns the list of stage functions that
were invoked and the final process result. -/
def mainModel (songRes logRes : StageResult) : List String × PyResult :=
  match runStageBody moduleBindings songRes with
  | PyResult.ok =>
      (["process_song_data", "process_log_data"],
        pySeq PyResult.ok fun _ => runStageBody moduleBindings logRes)
  | r => (["process_song_data"], r)

/-! ## Claims -/

/-- C1: partition completeness. The songs write partitions by (year,
artist_id), both present among the songs columns, and the time write
partitions by (year, month), both present among the time columns; but the
songplays projection onto the nine fact columns keeps neither `year` nor
`month`, so the (year, month) partitioned write of `song_plays` references
absent columns and fails — refuting the claim that the projected fact table
still has year and month available for the partitioned write. -/
theorem c1_songplays_partition_columns_dropped :
    writeSongs = Except.ok () ∧ writeTime = Except.ok () ∧
    songplaysColumns.contains "year" = false ∧
    songplaysColumns.contains "month" = false ∧
    writeSongplays =
      Except.error "AnalysisException: partition column not found in schema" :=
  ⟨rfl, rfl, rfl, rfl, rfl⟩

/-- C2: output layout. Four of the five tables are written under the output
root (`output_data + subdirectory`), but the users destination
`os.path.join(output_data, '/users')` evaluates to `"/users"` because the
second component is absolute, so the users table is written at a path that
is not of the form `output_data ++ rest` — refuting the claim that all five
tables land under the single output root. -/
theorem c2_users_path_escapes_output_root :
    songsWritePath = "s3a://gy-nano-bkt//songs" ∧
    artistsWritePath = "s3a://gy-nano-bkt//artists" ∧
    timeWritePath = "s3a://gy-nano-bkt//time" ∧
    songplaysWritePath = "s3a://gy-nano-bkt//song_plays" ∧
    usersWritePath = "/users" ∧
    ∀ rest : String, usersWritePath ≠ output_data ++ rest := by
  have hu : usersWritePath = "/users" := by decide
  refine ⟨rfl, rfl, rfl, rfl, hu, ?_⟩
  intro rest h
  rw [hu] at h
  have h2 := congrArg String.data h
  rw [String.data_append] at h2
  have h3 : output_data.data = 's' :: "3a://gy-nano-bkt/".data := rfl
  have h4 : ("/users").data = '/' :: "users".data := rfl
  rw [h3, h4, List.cons_append] at h2
  injection h2 with h5 _
  exact absurd h5 (by decide)

/-- Witness for C2 at the concrete suffix "users": the users destination is
"/users", which differs from the path under the output root. -/
theorem c2_witness :
    usersWritePath = "/users" ∧
    usersWritePath ≠ output_data ++ "users" :=
  ⟨c2_users_path_escapes_output_root.2.2.2.2.1,
    c2_users_path_escapes_output_root.2.2.2.2.2 "users"⟩

/-- C3: failure behavior. The handler body of every stage is
`error(f"..."); exit()`, but `error` is not among the module's bindings, so
a failing stage raises an uncaught NameError (an interpreter traceback, not
a single diagnostic line); moreover `exit()` with no argument terminates
with status 0, and `TimestampType` is also unbound, so the success path
(all five tables written, clean exit) is unreachable — refuting the claim
of one diagnostic line plus a non-zero exit status. -/
theorem c3_error_reporting_is_broken :
    handlerOutcome moduleBindings "Error reading log data files" =
      FailureReport.uncaughtTraceback "NameError: name error is not defined" ∧
    moduleBindings.contains "error" = false ∧
    moduleBindings.contains "TimestampType" = false ∧
    pyExitStatus none = 0 :=
  ⟨rfl, rfl, rfl, rfl⟩

/-- C9 counterexample: a failure inside `process_song_data` runs the
handler, which terminates the process (here by an uncaught NameError), so
`process_log_data` is never invoked in that run — refuting the claim that a
failure in the first stage does not prevent the second stage from being
invoked. -/
theorem c9_failed_song_stage_blocks_log_stage :
    ((mainModel
        (StageResult.failure
          "Error reading songs data files while processing songs data")
        StageResult.success).1).contains "process_log_data" = false :=
  rfl

/-- C9 amended: the two top-level table-building calls are sequential and
`main` itself never tests the first call's result; nevertheless every
failure path inside `process_song_data` terminates the process, so
`process_log_data` is invoked exactly when `process_song_data` completes
all of its steps. -/
theorem c9_second_stage_runs_iff_first_stage_completes
    (songRes logRes : StageResult) :
    (mainModel songRes logRes).1 =
      (match songRes with
       | StageResult.success => ["process_song_data", "process_log_data"]
       | StageResult.failure _ => ["process_song_data"]) := by
  cases songRes <;> rfl

/-- C10: configuration noninterference. The input and output roots are
hardcoded constants and the config only feeds the two AWS credential
environment variables, so two completed runs over the same input records
that differ only in config contents produce identical table contents and
identical destination paths. -/
theorem c10_config_noninterference (cfg1 cfg2 : Config)
    (songRecords : List SongRecord) (logs : List LogRecord)
    (o1 o2 : RunOutput)
    (h1 : runETL cfg1 songRecords logs = some o1)
    (h2 : runETL cfg2 songRecords logs = some o2) :
    o1.songs = o2.songs ∧ o1.artists = o2.artists ∧ o1.users = o2.users ∧
    o1.time = o2.time ∧ o1.songplays = o2.songplays ∧
    o1.songsPath = o2.songsPath ∧ o1.artistsPath = o2.artistsPath ∧
    o1.usersPath = o2.usersPath ∧ o1.timePath = o2.timePath ∧
    o1.songplaysPath = o2.songplaysPath ∧
    o1.songsPath = songsWritePath ∧ o1.usersPath = usersWritePath := by
  rcases cfg1 with ⟨k1, s1⟩
  rcases cfg2 with ⟨k2, s2⟩
  cases k1 <;> cases s1 <;> cases k2 <;> cases s2 <;>
    simp only [runETL, Option.some.injEq, reduceCtorEq] at h1 h2
  subst h1; subst h2; simp

/-- C5: filter invariant. A log row whose page is not "NextSong" is removed
by the session filter, so inserting such a row anywhere into the log input
changes none of the users, time and song_plays tables: it contributes zero
rows to each of them. -/
theorem c5_non_nextsong_rows_contribute_nothing (song_df : List SongRecord)
    (pre post : List LogRecord) (r : LogRecord) (h : r.page ≠ "NextSong") :
    users_table (pre ++ r :: post) = users_table (pre ++ post) ∧
    time_table (pre ++ r :: post) = time_table (pre ++ post) ∧
    joinedPairs (pre ++ r :: post) song_df =
      joinedPairs (pre ++ post) song_df ∧
    songplays_table [joinedPairs (pre ++ r :: post) song_df] =
      songplays_table [joinedPairs (pre ++ post) song_df] := by
  have hp : (r.page == "NextSong") = false := by
    simpa using h
  have hf : filterNextSong (pre ++ r :: post) = filterNextSong (pre ++ post) := by
    simp [filterNextSong, List.filter_append, List.filter_cons, hp]
  have he : filteredEvents (pre ++ r :: post) = filteredEvents (pre ++ post) := by
    unfold filteredEvents
    rw [hf]
  refine ⟨?_, ?_, ?_, ?_⟩
  · unfold users_table
    rw [he]
  · unfold time_table
    rw [he]
  · unfold joinedPairs
    rw [he]
  · unfold joinedPairs
    rw [he]

/-- A log record with page "Home" (used by the C5 witness). -/
def homeLog : LogRecord :=
  { artist := "Band", firstName := "Jo", gender := "F", itemInSession := 0,
    lastName := "Doe", level := "free", location := "LA", page := "Home",
    sessionId := 5, song := "T", ts := 1000000000000, userAgent := "UA",
    userId := "7" }

/-- A log record with page "NextSong" matching `sampleSong` (used by the
claim witnesses). -/
def nextSongLog : LogRecord :=
  { artist := "Band", firstName := "Jo", gender := "F", itemInSession := 0,
    lastName := "Doe", level := "free", location := "LA",
    page := "NextSong", sessionId := 5, song := "T", ts := 1000000000000,
    userAgent := "UA", userId := "7" }

/-- A song record by artist "Band" (used by the claim witnesses). -/
def sampleSong : SongRecord :=
  { song_id := "S1", title := "T", artist_id := "AR1", artist_name := "Band",
    artist_location := "LA", artist_latitude := 0, artist_longitude := 0,
    year := 2000, duration := 180 }

/-- Witness for C5: a page:"Home" record inserted between two NextSong
records contributes zero rows to users, time and song_plays. -/
theorem c5_witness :
    homeLog.page ≠ "NextSong" ∧
    users_table [nextSongLog, homeLog, nextSongLog] =
      users_table [nextSongLog, nextSongLog] ∧
    time_table [nextSongLog, homeLog, nextSongLog] =
      time_table [nextSongLog, nextSongLog] ∧
    songplays_table [joinedPairs [nextSongLog, homeLog, nextSongLog]
        [sampleSong]] =
      songplays_table [joinedPairs [nextSongLog, nextSongLog] [sampleSong]] :=
  ⟨by decide,
    (c5_non_nextsong_rows_contribute_nothing [sampleSong] [nextSongLog]
      [nextSongLog] homeLog (by decide)).1,
    (c5_non_nextsong_rows_contribute_nothing [sampleSong] [nextSongLog]
      [nextSongLog] homeLog (by decide)).2.1,
    (c5_non_nextsong_rows_contribute_nothing [sampleSong] [nextSongLog]
      [nextSongLog] homeLog (by decide)).2.2.2⟩

/-- C6: dedup correctness. Each of the four dimension tables is produced by
`dropDuplicates()` on the projected columns, so no two of its rows agree on
every projected column and its row count is at most its input's row count;
deduplication is by full-tuple equality, so two input song records sharing
a song_id but differing in title yield two distinct songs rows. -/
theorem c6_dimension_dedup (song_df : List SongRecord) (logs : List LogRecord)
    (r1 r2 : SongRecord) (h1 : r1 ∈ song_df) (h2 : r2 ∈ song_df)
    (ht : r1.title ≠ r2.title) :
    (songs_table song_df).Nodup ∧ (artists_table song_df).Nodup ∧
    (users_table logs).Nodup ∧ (time_table logs).Nodup ∧
    (songs_table song_df).length ≤ song_df.length ∧
    (artists_table song_df).length ≤ song_df.length ∧
    (users_table logs).length ≤ logs.length ∧
    (time_table logs).length ≤ logs.length ∧
    songsProj r1 ∈ songs_table song_df ∧ songsProj r2 ∈ songs_table song_df ∧
    songsProj r1 ≠ songsProj r2 := by
  have lenFiltered : ∀ ls : List LogRecord,
      (filteredEvents ls).length ≤ ls.length := by
    intro ls
    unfold filteredEvents filterNextSong
    rw [List.length_map]
    exact List.length_filter_le _ _
  refine ⟨List.nodup_dedup _, List.nodup_dedup _, List.nodup_dedup _,
    List.nodup_dedup _, ?_, ?_, ?_, ?_, ?_, ?_, ?_⟩
  · calc (songs_table song_df).length
        ≤ (song_df.map songsProj).length := (List.dedup_sublist _).length_le
      _ = song_df.length := List.length_map _ _
  · calc (artists_table song_df).length
        ≤ (song_df.map artistsProj).length := (List.dedup_sublist _).length_le
      _ = song_df.length := List.length_map _ _
  · calc (users_table logs).length
        ≤ ((filteredEvents logs).map usersProj).length :=
          (List.dedup_sublist _).length_le
      _ = (filteredEvents logs).length := List.length_map _ _
      _ ≤ logs.length := lenFiltered logs
  · calc (time_table logs).length
        ≤ ((filteredEvents logs).map (fun e => timeRowOf e.ts)).length :=
          (List.dedup_sublist _).length_le
      _ = (filteredEvents logs).length := List.length_map _ _
      _ ≤ logs.length := lenFiltered logs
  · exact List.mem_dedup.mpr (List.mem_map_of_mem _ h1)
  · exact List.mem_dedup.mpr (List.mem_map_of_mem _ h2)
  · intro hEq
    exact ht (congrArg SongsRow.title hEq)

/-- The month computed by the civil-date conversion is between 1 and 12. -/
theorem civilMonth_bounds (z : Nat) : 1 ≤ civilMonth z ∧ civilMonth z ≤ 12 := by
  unfold civilMonth mpOf doyOf yoeOf doeOf
  split <;> omega

/-- The day of month computed by the civil-date conversion is between 1 and
31. -/
theorem civilDay_bounds (z : Nat) : 1 ≤ civilDay z ∧ civilDay z ≤ 31 := by
  unfold civilDay mpOf
  generalize doyOf z = doy
  omega

/-- The hour of day of any epoch-millisecond timestamp is at most 23. -/
theorem hourOf_le (ts : Nat) : hourOf ts ≤ 23 := by
  unfold hourOf secondsOf
  omega

/-- Deduplication commutes with an injective map up to length. -/
theorem dedup_length_map_of_injective {α β : Type} [DecidableEq α]
    [DecidableEq β] (f : α → β) (hf : Function.Injective f) (l : List α) :
    (l.map f).dedup.length = l.dedup.length := by
  induction l with
  | nil => rfl
  | cons a l ih =>
    by_cases h : a ∈ l
    · rw [List.map_cons, List.dedup_cons_of_mem (List.mem_map_of_mem f h),
        List.dedup_cons_of_mem h, ih]
    · rw [List.map_cons, List.dedup_cons_of_not_mem,
        List.dedup_cons_of_not_mem h, List.length_cons, List.length_cons, ih]
      intro hmem
      obtain ⟨b, hb, hba⟩ := List.mem_map.mp hmem
      exact h (hf hba ▸ hb)

/-- Distinct millisecond timestamps give distinct time rows, because
`start_time` is the converted timestamp itself. -/
theorem timeRowOf_injective : Function.Injective timeRowOf := by
  intro a b h
  exact congrArg TimeRow.start_time h

/-- C7: time dimension derivation. Every time row comes from a filtered log
event and its start_time is the datetime converted from that event's ts;
every time row's hour is in [0,23], its day of month in [1,31] and its
month in [1,12]; and the time table has exactly one row per distinct
millisecond timestamp value occurring in the filtered log. -/
theorem c7_time_dimension (logs : List LogRecord) :
    (∀ row ∈ time_table logs, ∃ e ∈ filteredEvents logs,
        row = timeRowOf e.ts ∧ row.start_time = to_datetime e.ts) ∧
    (∀ row ∈ time_table logs,
        row.hour ≤ 23 ∧ 1 ≤ row.day ∧ row.day ≤ 31 ∧
        1 ≤ row.month ∧ row.month ≤ 12) ∧
    (time_table logs).length =
      ((filteredEvents logs).map (fun e => e.ts)).dedup.length := by
  have hsrc : ∀ row ∈ time_table logs, ∃ e ∈ filteredEvents logs,
      row = timeRowOf e.ts := by
    intro row hrow
    have hrow2 := List.mem_dedup.mp hrow
    obtain ⟨e, he, hre⟩ := List.mem_map.mp hrow2
    exact ⟨e, he, hre.symm⟩
  refine ⟨?_, ?_, ?_⟩
  · intro row hrow
    obtain ⟨e, he, hre⟩ := hsrc row hrow
    refine ⟨e, he, hre, ?_⟩
    rw [hre]
    rfl
  · intro row hrow
    obtain ⟨e, he, hre⟩ := hsrc row hrow
    subst hre
    exact ⟨hourOf_le e.ts, (civilDay_bounds (daysOf e.ts)).1,
      (civilDay_bounds (daysOf e.ts)).2, (civilMonth_bounds (daysOf e.ts)).1,
      (civilMonth_bounds (daysOf e.ts)).2⟩
  · show (((filteredEvents logs).map fun e => timeRowOf e.ts)).dedup.length = _
    have hcomp : ((filteredEvents logs).map fun e => timeRowOf e.ts)
        = ((filteredEvents logs).map (fun e => e.ts)).map timeRowOf := by
      rw [List.map_map]
      rfl
    rw [hcomp, dedup_length_map_of_injective timeRowOf timeRowOf_injective]

/-- Dropping the ids from one partition's id-row pairs gives back the
partition. -/
theorem monoIdsPart_map_snd {α : Type} (base : Nat) (l : List α) :
    ∀ j, (monoIdsPart base j l).map Prod.snd = l := by
  induction l with
  | nil => intro j; rfl
  | cons a as ih =>
    intro j
    rw [monoIdsPart, List.map_cons, ih]

/-- Dropping the ids from the id-row pairs gives back the concatenation of
the partitions. -/
theorem monoIdsFrom_map_snd {α : Type} (parts : List (List α)) :
    ∀ i, (monoIdsFrom i parts).map Prod.snd = parts.flatten := by
  induction parts with
  | nil => intro i; rfl
  | cons p ps ih =>
    intro i
    rw [monoIdsFrom, List.map_append, monoIdsPart_map_snd, ih,
      List.flatten_cons]

/-- Every id issued within one partition is at least its base offset. -/
theorem monoIdsPart_id_lb {α : Type} (base : Nat) (l : List α) :
    ∀ j x, x ∈ monoIdsPart base j l → base + j ≤ x.1 := by
  induction l with
  | nil =>
    intro j x hx
    cases hx
  | cons a as ih =>
    intro j x hx
    rw [monoIdsPart] at hx
    rcases List.mem_cons.mp hx with h | h
    · subst h
      exact Nat.le_refl _
    · have := ih (j + 1) x h
      omega

/-- Every id issued within one partition is below its base offset plus the
partition length. -/
theorem monoIdsPart_id_ub {α : Type} (base : Nat) (l : List α) :
    ∀ j x, x ∈ monoIdsPart base j l → x.1 < base + j + l.length := by
  induction l with
  | nil =>
    intro j x hx
    cases hx
  | cons a as ih =>
    intro j x hx
    rw [monoIdsPart] at hx
    rcases List.mem_cons.mp hx with h | h
    · subst h
      simp
    · have := ih (j + 1) x h
      rw [List.length_cons]
      omega

/-- The ids within one partition are strictly increasing in row order. -/
theorem monoIdsPart_pairwise {α : Type} (base : Nat) (l : List α) :
    ∀ j, (monoIdsPart base j l).Pairwise (fun p q => p.1 < q.1) := by
  induction l with
  | nil => intro j; exact List.Pairwise.nil
  | cons a as ih =>
    intro j
    rw [monoIdsPart]
    refine List.Pairwise.cons ?_ (ih (j + 1))
    intro x hx
    have := monoIdsPart_id_lb base as (j + 1) x hx
    simp only []
    omega

/-- Every id issued from partition index `i` onwards is at least
`i * 2^33`. -/
theorem monoIdsFrom_id_lb {α : Type} (parts : List (List α)) :
    ∀ i x, x ∈ monoIdsFrom i parts → i * K33 ≤ x.1 := by
  induction parts with
  | nil =>
    intro i x hx
    cases hx
  | cons p ps ih =>
    intro i x hx
    rw [monoIdsFrom] at hx
    rcases List.mem_append.mp hx with h | h
    · have := monoIdsPart_id_lb (i * K33) p 0 x h
      omega
    · have := ih (i + 1) x h
      have hK : (i + 1) * K33 = i * K33 + K33 := by ring
      omega

/-- When no partition holds more than `2^33` rows, the ids over all
partitions are strictly increasing in row order. -/
theorem monoIdsFrom_pairwise {α : Type} (parts : List (List α))
    (h : ∀ p ∈ parts, p.length ≤ K33) :
    ∀ i, (monoIdsFrom i parts).Pairwise (fun p q => p.1 < q.1) := by
  induction parts with
  | nil => intro i; exact List.Pairwise.nil
  | cons p ps ih =>
    intro i
    rw [monoIdsFrom, List.pairwise_append]
    refine ⟨monoIdsPart_pairwise _ _ 0,
      ih (fun q hq => h q (List.mem_cons_of_mem _ hq)) (i + 1), ?_⟩
    intro x hx y hy
    have hub := monoIdsPart_id_ub (i * K33) p 0 x hx
    have hlb := monoIdsFrom_id_lb ps (i + 1) y hy
    have hlen : p.length ≤ K33 := h p (List.mem_cons_self _ _)
    have hK : (i + 1) * K33 = i * K33 + K33 := by ring
    omega

/-- C4: songplay join semantics. For a filtered log event, the fact builder
inner-joins it against the raw song records on exact equality of the log
artist with the song artist_name: when no song's artist_name matches, the
event yields no fact row; otherwise it yields exactly one row per matching
song record (fan-out), every such row carrying the event's user_id and
session_id and the respective song's song_id and artist_id. -/
theorem c4_join_semantics (song_df : List SongRecord) (e : LogRecord)
    (parts : List (List (Event × SongRecord)))
    (hpage : e.page = "NextSong")
    (hparts : IsJoinPartitioning [e] song_df parts) :
    ((∀ s ∈ song_df, s.artist_name ≠ e.artist) →
      songplays_table parts = []) ∧
    (songplays_table parts).length =
      (song_df.filter fun s => e.artist == s.artist_name).length ∧
    ∀ r ∈ songplays_table parts,
      r.user_id = e.userId ∧ r.session_id = e.sessionId ∧
      ∃ s ∈ song_df, s.artist_name = e.artist ∧
        r.song_id = s.song_id ∧ r.artist_id = s.artist_id := by
  have hj : joinedPairs [e] song_df =
      (song_df.filter fun s => e.artist == s.artist_name).map
        (fun s => (renameColumns e, s)) := by
    simp [joinedPairs, filteredEvents, filterNextSong, renameColumns, hpage]
  have hflat : parts.flatten =
      (song_df.filter fun s => e.artist == s.artist_name).map
        (fun s => (renameColumns e, s)) := by
    have hparts2 : parts.flatten = joinedPairs [e] song_df := hparts
    rw [hparts2, hj]
  have hsnd : (monotonically_increasing_id parts).map Prod.snd =
      parts.flatten := monoIdsFrom_map_snd parts 0
  have hlen : (songplays_table parts).length = parts.flatten.length := by
    unfold songplays_table
    rw [List.length_map, ← hsnd, List.length_map]
  refine ⟨?_, ?_, ?_⟩
  · intro hnone
    have hfil : (song_df.filter fun s => e.artist == s.artist_name) = [] := by
      apply List.filter_eq_nil_iff.mpr
      intro s hs
      simp only [beq_iff_eq]
      exact fun hcontra => hnone s hs (hcontra ▸ rfl)
    have hempty : parts.flatten = [] := by
      rw [hflat, hfil]
      rfl
    have h0 : (songplays_table parts).length = 0 := by
      rw [hlen, hempty]
      rfl
    exact List.eq_nil_of_length_eq_zero h0
  · rw [hlen, hflat, List.length_map]
  · intro r hr
    obtain ⟨x, hx, hrx⟩ := List.mem_map.mp hr
    have hx2 : x.2 ∈ parts.flatten := by
      rw [← hsnd]
      exact List.mem_map_of_mem Prod.snd hx
    rw [hflat] at hx2
    obtain ⟨s, hs, hsx⟩ := List.mem_map.mp hx2
    have hsfil := List.mem_filter.mp hs
    have hname : s.artist_name = e.artist := (eq_of_beq hsfil.2).symm
    subst hrx
    obtain ⟨idv, xev, xsv⟩ := x
    cases hsx
    exact ⟨rfl, rfl, s, hsfil.1, hname, rfl, rfl⟩

/-- Witness for C7 at a one-event log: the time table has one row per
distinct timestamp (here exactly one), with hour, day and month in range. -/
theorem c7_witness :
    (time_table [nextSongLog]).length =
      ((filteredEvents [nextSongLog]).map (fun e => e.ts)).dedup.length ∧
    (time_table [nextSongLog]).length = 1 ∧
    ∀ row ∈ time_table [nextSongLog],
      row.hour ≤ 23 ∧ 1 ≤ row.day ∧ row.day ≤ 31 ∧
      1 ≤ row.month ∧ row.month ≤ 12 :=
  ⟨(c7_time_dimension [nextSongLog]).2.2, by decide,
    (c7_time_dimension [nextSongLog]).2.1⟩

/-- A second song record, also by artist "Band" but a different song (used
by the C4 and C8 witnesses for the fan-out scenario). -/
def sampleSongOther : SongRecord :=
  { song_id := "S2", title := "T2", artist_id := "AR2",
    artist_name := "Band", artist_location := "NY", artist_latitude := 1,
    artist_longitude := 1, year := 2001, duration := 200 }

/-- A single-partition partitioning of the join of `nextSongLog` against
the two "Band" songs (used by the C4 witness). -/
def sampleJoinParts : List (List (Event × SongRecord)) :=
  [joinedPairs [nextSongLog] [sampleSong, sampleSongOther]]

/-- Witness for C4: one matching log event against two songs sharing
artist_name "Band" yields exactly two fact rows, each carrying the event's
user_id "7" and session_id 5. -/
theorem c4_witness :
    nextSongLog.page = "NextSong" ∧
    (songplays_table sampleJoinParts).length = 2 ∧
    ∀ r ∈ songplays_table sampleJoinParts,
      r.user_id = "7" ∧ r.session_id = 5 := by
  have H := c4_join_semantics [sampleSong, sampleSongOther] nextSongLog
    sampleJoinParts rfl rfl
  exact ⟨rfl, H.2.1.trans (by decide),
    fun r hr => ⟨(H.2.2 r hr).1, (H.2.2 r hr).2.1⟩⟩

/-- C8: songplay id assignment. The ids assigned by
`monotonically_increasing_id` to the fact rows — partition index in the
upper bits, row offset in the lower 33 bits — are strictly increasing in
row order and pairwise distinct across the whole run, provided no partition
exceeds `2^33` rows. -/
theorem c8_songplay_ids_strictly_increasing
    (parts : List (List (Event × SongRecord)))
    (h : ∀ p ∈ parts, p.length ≤ K33) :
    ((songplays_table parts).map (fun r => r.songplay_id)).Pairwise
      (fun a b => a < b) ∧
    ((songplays_table parts).map (fun r => r.songplay_id)).Nodup := by
  have hids : (songplays_table parts).map (fun r => r.songplay_id) =
      (monotonically_increasing_id parts).map (fun x => x.1) := by
    unfold songplays_table
    rw [List.map_map]
    rfl
  have hpw : ((monotonically_increasing_id parts).map
      (fun x => x.1)).Pairwise (fun a b => a < b) :=
    List.pairwise_map.mpr (monoIdsFrom_pairwise parts h 0)
  rw [hids]
  exact ⟨hpw, hpw.imp Nat.ne_of_lt⟩

/-- A two-partition partitioning of the joined rows, one row each (used by
the C8 witness). -/
def samplePartitioned : List (List (Event × SongRecord)) :=
  [[(renameColumns nextSongLog, sampleSong)],
   [(renameColumns nextSongLog, sampleSongOther)]]

/-- Witness for C8: with two one-row partitions the assigned ids are
0 and 2^33 — strictly increasing and distinct but not contiguous. -/
theorem c8_witness :
    (∀ p ∈ samplePartitioned, p.length ≤ K33) ∧
    (songplays_table samplePartitioned).map (fun r => r.songplay_id) =
      [0, 8589934592] ∧
    ((songplays_table samplePartitioned).map
      (fun r => r.songplay_id)).Pairwise (fun a b => a < b) ∧
    ((songplays_table samplePartitioned).map
      (fun r => r.songplay_id)).Nodup :=
  ⟨by decide, rfl,
    (c8_songplay_ids_strictly_increasing samplePartitioned (by decide)).1,
    (c8_songplay_ids_strictly_increasing samplePartitioned (by decide)).2⟩

/-- A second song record sharing song_id "S1" with `sampleSong` but with a
different title (used by the C6 witness). -/
def sampleSongRetitled : SongRecord :=
  { song_id := "S1", title := "T2", artist_id := "AR1",
    artist_name := "Band", artist_location := "LA", artist_latitude := 0,
    artist_longitude := 0, year := 2000, duration := 180 }

/-- Witness for C6: a song_id appearing with two different titles yields
two distinct songs rows, and the concrete tables are duplicate-free. -/
theorem c6_witness :
    sampleSong.song_id = sampleSongRetitled.song_id ∧
    (songs_table [sampleSong, sampleSongRetitled]).Nodup ∧
    songsProj sampleSong ∈ songs_table [sampleSong, sampleSongRetitled] ∧
    songsProj sampleSongRetitled ∈
      songs_table [sampleSong, sampleSongRetitled] ∧
    songsProj sampleSong ≠ songsProj sampleSongRetitled :=
  ⟨by decide,
    (c6_dimension_dedup [sampleSong, sampleSongRetitled] [nextSongLog]
      sampleSong sampleSongRetitled (by decide) (by decide) (by decide)).1,
    (c6_dimension_dedup [sampleSong, sampleSongRetitled] [nextSongLog]
      sampleSong sampleSongRetitled (by decide) (by decide)
      (by decide)).2.2.2.2.2.2.2.2.1,
    (c6_dimension_dedup [sampleSong, sampleSongRetitled] [nextSongLog]
      sampleSong sampleSongRetitled (by decide) (by decide)
      (by decide)).2.2.2.2.2.2.2.2.2.1,
    (c6_dimension_dedup [sampleSong, sampleSongRetitled] [nextSongLog]
      sampleSong sampleSongRetitled (by decide) (by decide)
      (by decide)).2.2.2.2.2.2.2.2.2.2⟩

/-- Concrete output of a run with the first sample config over empty
inputs (used only by the C10 witness). -/
def sampleRunOutput1 : RunOutput :=
  { env := ⟨"key1", "secret1"⟩, songsPath := songsWritePath,
    artistsPath := artistsWritePath, usersPath := usersWritePath,
    timePath := timeWritePath, songplaysPath := songplaysWritePath,
    songs := [], artists := [], users := [], time := [], songplays := [] }

/-- Concrete output of a run with the second sample config over empty
inputs (used only by the C10 witness). -/
def sampleRunOutput2 : RunOutput :=
  { env := ⟨"key2", "secret2"⟩, songsPath := songsWritePath,
    artistsPath := artistsWritePath, usersPath := usersWritePath,
    timePath := timeWritePath, songplaysPath := songplaysWritePath,
    songs := [], artists := [], users := [], time := [], songplays := [] }

/-- Witness for C10 at two concrete configs over empty inputs. -/
theorem c10_witness :
    runETL ⟨some "key1", some "secret1"⟩ [] [] = some sampleRunOutput1 ∧
    runETL ⟨some "key2", some "secret2"⟩ [] [] = some sampleRunOutput2 ∧
    sampleRunOutput1.users = sampleRunOutput2.users ∧
    sampleRunOutput1.usersPath = sampleRunOutput2.usersPath :=
  ⟨rfl, rfl,
    (c10_config_noninterference ⟨some "key1", some "secret1"⟩
      ⟨some "key2", some "secret2"⟩ [] [] _ _ rfl rfl).2.2.1,
    (c10_config_noninterference ⟨some "key1", some "secret1"⟩
      ⟨some "key2", some "secret2"⟩ [] [] _ _ rfl rfl).2.2.2.2.2.2.2.1⟩
